import Mathlib

/-!
Shallow embedding of the option-resolution and safe-materialization engine of
`create-roblox-ts` (`src/commands/init.ts`), together with proofs about it.

The embedding follows the source closely:
- `InitMode`, `PackageManager`, `packageManagerCommands` mirror the enums and
  the lookup table at the top of `init.ts`;
- the tool-availability probe mirrors the `Promise.allSettled` mapping at
  lines 112-120;
- `resolveConfig` mirrors the second `prompts` call and the destructuring
  with defaults at lines 124-188 (each prompt is asked exactly when its
  `type` predicate is truthy, cancellation aborts with exit code 1, and a
  skipped prompt falls back to the destructuring default);
- the path inventory and collision check mirror lines 190-221;
- `buildSteps` / `runSteps` mirror the sequence of `benchmark` blocks at
  lines 225-381 and the fail-fast propagation of a step error.
-/

namespace CreateRobloxTS

/-- Decidable equality for `Except`, used to evaluate concrete runs. -/
instance {ε α : Type} [DecidableEq ε] [DecidableEq α] : DecidableEq (Except ε α) :=
  fun x y =>
    match x, y with
    | Except.ok a, Except.ok b =>
      if h : a = b then isTrue (by rw [h])
      else isFalse (by intro hc; injection hc; contradiction)
    | Except.ok _, Except.error _ => isFalse (by intro hc; exact Except.noConfusion hc)
    | Except.error _, Except.ok _ => isFalse (by intro hc; exact Except.noConfusion hc)
    | Except.error a, Except.error b =>
      if h : a = b then isTrue (by rw [h])
      else isFalse (by intro hc; injection hc; contradiction)

/-- Project template kinds (`InitMode` in `init.ts`). -/
inductive InitMode
  | none
  | game
  | place
  | model
  | plugin
  | package
  deriving DecidableEq, Repr

/-- Supported package managers (`PackageManager` in `init.ts`). -/
inductive PackageManager
  | npm
  | yarn
  | pnpm
  deriving DecidableEq, Repr

/-- Command templates of one package manager (`PackageManagerCommands`). -/
structure PackageManagerCommands where
  init : String
  devInstall : String
  build : String
  deriving DecidableEq, Repr

/-- Lookup table `packageManagerCommands` from `init.ts`. -/
def packageManagerCommands : PackageManager → PackageManagerCommands
  | PackageManager.npm => ⟨"npm init -y", "npm install --silent -D", "npm run build"⟩
  | PackageManager.yarn => ⟨"yarn init -y", "yarn add --silent -D", "yarn run build"⟩
  | PackageManager.pnpm => ⟨"pnpm init", "pnpm install --silent -D", "pnpm run build"⟩

/-- Parsed command-line options (`InitOptions` in `init.ts`); every field is
optional, `Option.none` standing for `undefined`. -/
structure InitOptions where
  compilerVersion : Option String := Option.none
  dir : Option String := Option.none
  yes : Option Bool := Option.none
  git : Option Bool := Option.none
  eslint : Option Bool := Option.none
  prettier : Option Bool := Option.none
  vscode : Option Bool := Option.none
  packageManager : Option PackageManager := Option.none
  skipBuild : Option Bool := Option.none
  deriving DecidableEq, Repr

/-! ## Tool-availability probe (`init.ts` lines 112-120) -/

/-- Outcome of one settled `lookpath` promise: `fulfilled` carries the found
path (or `Option.none` for an explicit not-found result), `rejected` stands
for a lookup that errored for any other reason. -/
inductive LookupResult
  | fulfilled (value : Option String)
  | rejected
  deriving DecidableEq, Repr

/-- Mapping applied to each settled lookup:
`v.status === "fulfilled" ? v.value !== undefined : true`. -/
def settledAvailability : LookupResult → Bool
  | LookupResult.fulfilled v => v.isSome
  | LookupResult.rejected => true

/-- Fixed list of probed tools, in source order. -/
def probeTools : List String := ["npm", "pnpm", "yarn", "git"]

/-- The probe maps every settled lookup result independently. -/
def probeAvailabilities (results : List LookupResult) : List Bool :=
  results.map settledAvailability

/-- Availability flags of the four probed tools (the destructured
`[npmAvailable, pnpmAvailable, yarnAvailable, gitAvailable]`). -/
structure ToolAvailability where
  npmAvailable : Bool
  pnpmAvailable : Bool
  yarnAvailable : Bool
  gitAvailable : Bool
  deriving DecidableEq, Repr

/-- Destructuring of the probe's settled results into availability flags. -/
def toolAvailabilityOfResults (rNpm rPnpm rYarn rGit : LookupResult) : ToolAvailability :=
  ⟨settledAvailability rNpm, settledAvailability rPnpm,
    settledAvailability rYarn, settledAvailability rGit⟩

/-- The `packageManagerExistance` record from `init.ts`. -/
def packageManagerExistance (a : ToolAvailability) : PackageManager → Bool
  | PackageManager.npm => a.npmAvailable
  | PackageManager.pnpm => a.pnpmAvailable
  | PackageManager.yarn => a.yarnAvailable

/-- Number of available package managers:
`Object.values(packageManagerExistance).filter(exists => exists).length`. -/
def packageManagerCount (a : ToolAvailability) : Nat :=
  (([a.npmAvailable, a.pnpmAvailable, a.yarnAvailable]).filter (fun b => b)).length

/-! ## Configuration resolution (`init.ts` lines 124-188) -/

/-- Reply of the interactive source for one prompt: a supplied value, or a
user cancellation (which triggers `onCancel`, i.e. `process.exit(1)`). -/
inductive Answer (α : Type)
  | given (value : α)
  | cancelled
  deriving DecidableEq, Repr

/-- Scripted replies of the interactive source for the second `prompts` call,
one per prompt in source order. A reply is consulted only when the matching
prompt is actually shown. -/
structure InteractionAnswers where
  template : Answer InitMode
  git : Answer Bool
  eslint : Answer Bool
  prettier : Answer Bool
  vscode : Answer Bool
  packageManager : Answer PackageManager
  deriving DecidableEq, Repr

/-- Whether the template prompt is shown: `initMode === InitMode.None`. -/
def templateAsked (initMode : InitMode) : Bool :=
  initMode == InitMode.none

/-- Whether the Git prompt is shown:
`argv.git === undefined && argv.yes === undefined && gitAvailable`. -/
def gitAsked (argv : InitOptions) (a : ToolAvailability) : Bool :=
  argv.git.isNone && argv.yes.isNone && a.gitAvailable

/-- Whether the ESLint prompt is shown:
`argv.eslint === undefined && argv.yes === undefined`. -/
def eslintAsked (argv : InitOptions) : Bool :=
  argv.eslint.isNone && argv.yes.isNone

/-- Whether the Prettier prompt is shown. -/
def prettierAsked (argv : InitOptions) : Bool :=
  argv.prettier.isNone && argv.yes.isNone

/-- Whether the VSCode prompt is shown. -/
def vscodeAsked (argv : InitOptions) : Bool :=
  argv.vscode.isNone && argv.yes.isNone

/-- Whether the package-manager prompt is shown:
`argv.packageManager === undefined && packageManagerCount > 1 && argv.yes === undefined`. -/
def packageManagerAsked (argv : InitOptions) (a : ToolAvailability) : Bool :=
  argv.packageManager.isNone && decide (packageManagerCount a > 1) && argv.yes.isNone

/-- Destructuring default for `git`: `argv.git ?? (argv.yes && gitAvailable) ?? false`. -/
def gitDefault (argv : InitOptions) (a : ToolAvailability) : Bool :=
  match argv.git with
  | some b => b
  | Option.none =>
    match argv.yes with
    | some y => y && a.gitAvailable
    | Option.none => false

/-- Destructuring default for `eslint`: `argv.eslint ?? argv.yes ?? false`. -/
def eslintDefault (argv : InitOptions) : Bool :=
  argv.eslint.getD (argv.yes.getD false)

/-- Destructuring default for `prettier`: `argv.prettier ?? argv.yes ?? false`. -/
def prettierDefault (argv : InitOptions) : Bool :=
  argv.prettier.getD (argv.yes.getD false)

/-- Destructuring default for `vscode`: `argv.vscode ?? argv.yes ?? false`. -/
def vscodeDefault (argv : InitOptions) : Bool :=
  argv.vscode.getD (argv.yes.getD false)

/-- Destructuring default for `packageManager`:
`argv.packageManager ?? PackageManager.NPM`. -/
def packageManagerDefault (argv : InitOptions) : PackageManager :=
  argv.packageManager.getD PackageManager.npm

/-- Fully resolved configuration produced by the destructuring at
`init.ts` lines 124-137. -/
structure ResolvedConfig where
  template : InitMode
  git : Bool
  eslint : Bool
  prettier : Bool
  vscode : Bool
  packageManager : PackageManager
  deriving DecidableEq, Repr

/-- Resolution of one field: when the prompt is shown the interactive reply
is used (cancellation exits with code 1), otherwise the destructuring
default applies without consulting the interaction source. -/
def askField {α : Type} (asked : Bool) (reply : Answer α) (dflt : α) : Except Nat α :=
  if asked then
    match reply with
    | Answer.given v => Except.ok v
    | Answer.cancelled => Except.error 1
  else Except.ok dflt

/-- Configuration resolution: the prompts of the second `prompts` call are
processed in source order; a cancellation at any of them aborts the whole
resolution with exit code 1 and later prompts are never reached. -/
def resolveConfig (initMode : InitMode) (argv : InitOptions) (a : ToolAvailability)
    (ans : InteractionAnswers) : Except Nat ResolvedConfig :=
  match askField (templateAsked initMode) ans.template initMode with
  | Except.error code => Except.error code
  | Except.ok template =>
    match askField (gitAsked argv a) ans.git (gitDefault argv a) with
    | Except.error code => Except.error code
    | Except.ok git =>
      match askField (eslintAsked argv) ans.eslint (eslintDefault argv) with
      | Except.error code => Except.error code
      | Except.ok eslint =>
        match askField (prettierAsked argv) ans.prettier (prettierDefault argv) with
        | Except.error code => Except.error code
        | Except.ok prettier =>
          match askField (vscodeAsked argv) ans.vscode (vscodeDefault argv) with
          | Except.error code => Except.error code
          | Except.ok vscode =>
            match askField (packageManagerAsked argv a) ans.packageManager
                (packageManagerDefault argv) with
            | Except.error code => Except.error code
            | Except.ok packageManager =>
              Except.ok ⟨template, git, eslint, prettier, vscode, packageManager⟩

/-! ## Filesystem model and collision guard (`init.ts` lines 190-221) -/

/-- Kind of an existing filesystem node, at the granularity the collision
check inspects it: `stat.isFile()`, `stat.isSymbolicLink()`, or a directory
with its `readdir` entries. -/
inductive FsNode
  | file
  | symlink
  | dir (entries : List String)
  deriving DecidableEq, Repr

/-- Snapshot of the host filesystem as an association list from absolute
path to node. A path absent from the list does not exist. -/
structure FileSystem where
  nodes : List (String × FsNode)
  deriving DecidableEq, Repr

/-- Lookup of a path in the filesystem snapshot. -/
def FileSystem.lookup (fs : FileSystem) (p : String) : Option FsNode :=
  (fs.nodes.find? (fun e => e.1 == p)).map (fun e => e.2)

/-- Stat predicate `isFile`. -/
def statIsFile : FsNode → Bool
  | FsNode.file => true
  | _ => false

/-- Stat predicate `isSymbolicLink`. -/
def statIsSymbolicLink : FsNode → Bool
  | FsNode.symlink => true
  | _ => false

/-- Stat predicate `isDirectory`. -/
def statIsDirectory : FsNode → Bool
  | FsNode.dir _ => true
  | _ => false

/-- Entries returned by `readdir`; only reached on directory nodes thanks to
the short-circuit disjunction in the source. -/
def readdirEntries : FsNode → List String
  | FsNode.dir es => es
  | _ => []

/-- Model of `path.join(a, b)`. -/
def pathJoin (a b : String) : String :=
  a ++ "/" ++ b

/-- Whether a path string is absolute (starts with a separator). -/
def isAbsolutePath (d : String) : Bool :=
  match d.data with
  | [] => false
  | c :: _ => c == '/'

/-- Model of `path.resolve(dir)` against the invocation working directory. -/
def pathResolve (processCwd d : String) : String :=
  if isAbsolutePath d then d else pathJoin processCwd d

/-- Model of `path.relative(base, p)`: strip the base prefix when present. -/
def pathRelative (base p : String) : String :=
  if (base ++ "/").isPrefixOf p then p.drop (base ++ "/").length else p

/-- Collision predicate for one inventory path (`init.ts` lines 210-215):
the path is truthy and exists, and its stat is a regular file, a symbolic
link, or its directory listing is non-empty. -/
def isCollision (fs : FileSystem) (p : String) : Bool :=
  (p != "") &&
    (match fs.lookup p with
     | Option.none => false
     | some node =>
       statIsFile node || statIsSymbolicLink node || !(readdirEntries node).isEmpty)

/-- The eight always-checked generated-config paths (the `paths` record at
`init.ts` lines 190-199), in source order. -/
def fixedPaths (cwd : String) : List String :=
  [pathJoin cwd "package.json",
   pathJoin cwd "package-lock.json",
   pathJoin cwd "tsconfig.json",
   pathJoin cwd ".gitignore",
   pathJoin cwd ".eslintrc",
   pathJoin cwd ".prettierrc",
   pathJoin (pathJoin cwd ".vscode") "settings.json",
   pathJoin (pathJoin cwd ".vscode") "extensions.json"]

/-- Full path inventory: the fixed generated-config paths followed by the
target-joined entries of the chosen template directory
(`init.ts` lines 203-206). -/
def pathInventory (cwd : String) (templateFiles : List String) : List String :=
  fixedPaths cwd ++ templateFiles.map (pathJoin cwd)

/-! ## Step sequence (`init.ts` lines 225-381) -/

/-- Labels of the provisioning steps, one per `benchmark` block. -/
inductive StepLabel
  | packageJsonStep
  | gitStep
  | installStep
  | eslintStep
  | prettierStep
  | vscodeStep
  | copyStep
  | buildStep
  deriving DecidableEq, Repr

/-- Truthiness of `!argv.skipBuild`: the build step runs unless `skipBuild`
was explicitly set to `true`. -/
def runBuild (skipBuild : Option Bool) : Bool :=
  match skipBuild with
  | some true => false
  | _ => true

/-- Sequence of provisioning steps the source executes for a resolved
configuration, in source order. -/
def buildSteps (cfg : ResolvedConfig) (skipBuild : Option Bool) : List StepLabel :=
  [StepLabel.packageJsonStep] ++
  (if cfg.git then [StepLabel.gitStep] else []) ++
  [StepLabel.installStep] ++
  (if cfg.eslint then [StepLabel.eslintStep] else []) ++
  (if cfg.prettier then [StepLabel.prettierStep] else []) ++
  (if cfg.vscode then [StepLabel.vscodeStep] else []) ++
  [StepLabel.copyStep] ++
  (if runBuild skipBuild then [StepLabel.buildStep] else [])

/-- Canonical full step order from which the executed steps are drawn. -/
def canonicalOrder : List StepLabel :=
  [StepLabel.packageJsonStep, StepLabel.gitStep, StepLabel.installStep,
   StepLabel.eslintStep, StepLabel.prettierStep, StepLabel.vscodeStep,
   StepLabel.copyStep, StepLabel.buildStep]

/-- Whether a step of the canonical order is enabled for a configuration. -/
def stepEnabled (cfg : ResolvedConfig) (skipBuild : Option Bool) : StepLabel → Bool
  | StepLabel.packageJsonStep => true
  | StepLabel.gitStep => cfg.git
  | StepLabel.installStep => true
  | StepLabel.eslintStep => cfg.eslint
  | StepLabel.prettierStep => cfg.prettier
  | StepLabel.vscodeStep => cfg.vscode
  | StepLabel.copyStep => true
  | StepLabel.buildStep => runBuild skipBuild

/-- Sequential execution of steps with their action results: each step is
started in order; on the first failing action the error is returned and no
later step is started. The first component is the list of steps whose
actions were started (completed steps are kept, never rolled back). -/
def runSteps : List (StepLabel × Except String Unit) → List StepLabel × Option String
  | [] => ([], Option.none)
  | (s, Except.ok _) :: rest =>
    ((s :: (runSteps rest).1), (runSteps rest).2)
  | (s, Except.error e) :: _ => ([s], some e)

/-- Materialization phase after resolution: compute the collision list over
the full inventory, relativize it to the invocation working directory, and
either fail with it (running no step) or run the step sequence
(`init.ts` lines 208-221 and 225-381). -/
def initMaterialize (processCwd cwd : String) (templateFiles : List String)
    (fs : FileSystem) (cfg : ResolvedConfig) (skipBuild : Option Bool)
    (acts : StepLabel → Except String Unit) :
    List StepLabel × Except (List String) (Option String) :=
  let existingPaths :=
    ((pathInventory cwd templateFiles).filter (isCollision fs)).map (pathRelative processCwd)
  if existingPaths.isEmpty then
    (((runSteps ((buildSteps cfg skipBuild).map (fun s => (s, acts s)))).1),
      Except.ok (runSteps ((buildSteps cfg skipBuild).map (fun s => (s, acts s)))).2)
  else ([], Except.error existingPaths)

/-! ## Early run phase with effects (`init.ts` lines 84-105 and 124-188) -/

/-- Filesystem effects performed before the materialization steps. -/
inductive FsEffect
  | ensureDir (p : String)
  | writeFile (p : String)
  deriving DecidableEq, Repr

/-- Outcome of the run phase up to the end of configuration resolution. -/
inductive Phase1Result
  | cancelled (exitCode : Nat)
  | invalidDir (p : String)
  | resolved (cfg : ResolvedConfig)
  deriving DecidableEq, Repr

/-- The directory prompt (`init.ts` lines 87-96): asked only when `--dir`
was not given; cancellation exits with code 1. -/
def dirResult (argv : InitOptions) (dirAnswer : Answer String) : Except Nat String :=
  match argv.dir with
  | some d => Except.ok d
  | Option.none =>
    match dirAnswer with
    | Answer.given d => Except.ok d
    | Answer.cancelled => Except.error 1

/-- Run phase up to the end of resolution, with its effect trace: resolve the
target directory (prompting if needed), create it when missing
(`fs.ensureDir`), reject a non-directory target, then resolve the
configuration interactively. -/
def initResolvePhase (processCwd : String) (initMode : InitMode) (argv : InitOptions)
    (dirAnswer : Answer String) (fs : FileSystem) (a : ToolAvailability)
    (ans : InteractionAnswers) : List FsEffect × Phase1Result :=
  match dirResult argv dirAnswer with
  | Except.error code => ([], Phase1Result.cancelled code)
  | Except.ok d =>
    match fs.lookup (pathResolve processCwd d) with
    | Option.none =>
      match resolveConfig initMode argv a ans with
      | Except.error code =>
        ([FsEffect.ensureDir (pathResolve processCwd d)], Phase1Result.cancelled code)
      | Except.ok cfg =>
        ([FsEffect.ensureDir (pathResolve processCwd d)], Phase1Result.resolved cfg)
    | some node =>
      if statIsDirectory node then
        match resolveConfig initMode argv a ans with
        | Except.error code => ([], Phase1Result.cancelled code)
        | Except.ok cfg => ([], Phase1Result.resolved cfg)
      else ([], Phase1Result.invalidDir (pathResolve processCwd d))

/-! ## Concrete sample values used in witnesses and counterexamples -/

/-- Host with every probed tool available. -/
def availAll : ToolAvailability := ⟨true, true, true, true⟩

/-- Host where yarn is the only available package manager. -/
def availYarnOnly : ToolAvailability := ⟨false, false, true, true⟩

/-- Host where npm is the only available package manager. -/
def availNpmOnly : ToolAvailability := ⟨true, false, false, true⟩

/-- Host with every package manager available but no Git binary. -/
def availNoGit : ToolAvailability := ⟨true, true, true, false⟩

/-- Interaction source answering `false` to every boolean prompt and yarn to
the package-manager prompt. -/
def answersFalse : InteractionAnswers :=
  ⟨Answer.given InitMode.game, Answer.given false, Answer.given false,
   Answer.given false, Answer.given false, Answer.given PackageManager.yarn⟩

/-- Interaction source answering `true` to every boolean prompt. -/
def answersTrue : InteractionAnswers :=
  ⟨Answer.given InitMode.game, Answer.given true, Answer.given true,
   Answer.given true, Answer.given true, Answer.given PackageManager.npm⟩

/-- Interaction source that cancels at the Git prompt. -/
def answersCancelGit : InteractionAnswers :=
  ⟨Answer.given InitMode.game, Answer.cancelled, Answer.given true,
   Answer.given true, Answer.given true, Answer.given PackageManager.npm⟩

/-- Options record with only the "use defaults" flag set. -/
def argvYes : InitOptions := { yes := some true }

/-- Options record with every resolvable field set explicitly. -/
def argvAllExplicit : InitOptions :=
  { dir := some "d", yes := some true, git := some true, eslint := some false,
    prettier := some true, vscode := some false,
    packageManager := some PackageManager.pnpm }

/-- Configuration resolved from `argvAllExplicit` for the package template. -/
def cfgAllExplicit : ResolvedConfig :=
  ⟨InitMode.package, true, false, true, false, PackageManager.pnpm⟩

/-- Configuration resolved from `argvYes` on a host without Git. -/
def cfgYesNoGit : ResolvedConfig :=
  ⟨InitMode.game, false, true, true, true, PackageManager.npm⟩

/-- Plain all-disabled configuration. -/
def cfgPlain : ResolvedConfig :=
  ⟨InitMode.game, false, false, false, false, PackageManager.npm⟩

/-- Filesystem snapshot holding one pre-existing `package.json` file. -/
def fsDemo : FileSystem := ⟨[(pathJoin "/w" "package.json", FsNode.file)]⟩

/-- Step actions that all succeed. -/
def actsOk : StepLabel → Except String Unit := fun _ => Except.ok ()

/-! ## Helper lemmas -/

/-- Characterization of a successful field resolution. -/
theorem askField_ok {α : Type} (asked : Bool) (reply : Answer α) (dflt v : α) :
    askField asked reply dflt = Except.ok v ↔
      (asked = true ∧ reply = Answer.given v) ∨ (asked = false ∧ v = dflt) := by
  cases asked <;> cases reply <;> simp [askField, eq_comm]

/-- Every field resolution either succeeds or cancels with exit code 1. -/
theorem askField_cases {α : Type} (asked : Bool) (reply : Answer α) (dflt : α) :
    (∃ v, askField asked reply dflt = Except.ok v) ∨
      askField asked reply dflt = Except.error 1 := by
  cases asked <;> cases reply <;> simp [askField]

/-- Characterization of a successful configuration resolution, one conjunct
per prompt of the second `prompts` call. -/
theorem resolveConfig_ok_iff (initMode : InitMode) (argv : InitOptions)
    (a : ToolAvailability) (ans : InteractionAnswers) (cfg : ResolvedConfig) :
    resolveConfig initMode argv a ans = Except.ok cfg ↔
      (askField (templateAsked initMode) ans.template initMode = Except.ok cfg.template ∧
       askField (gitAsked argv a) ans.git (gitDefault argv a) = Except.ok cfg.git ∧
       askField (eslintAsked argv) ans.eslint (eslintDefault argv) = Except.ok cfg.eslint ∧
       askField (prettierAsked argv) ans.prettier (prettierDefault argv) =
         Except.ok cfg.prettier ∧
       askField (vscodeAsked argv) ans.vscode (vscodeDefault argv) = Except.ok cfg.vscode ∧
       askField (packageManagerAsked argv a) ans.packageManager (packageManagerDefault argv) =
         Except.ok cfg.packageManager) := by
  obtain ⟨t, g, e, p, v, pm⟩ := cfg
  cases h1 : askField (templateAsked initMode) ans.template initMode <;>
    cases h2 : askField (gitAsked argv a) ans.git (gitDefault argv a) <;>
      cases h3 : askField (eslintAsked argv) ans.eslint (eslintDefault argv) <;>
        cases h4 : askField (prettierAsked argv) ans.prettier (prettierDefault argv) <;>
          cases h5 : askField (vscodeAsked argv) ans.vscode (vscodeDefault argv) <;>
            cases h6 : askField (packageManagerAsked argv a) ans.packageManager
                (packageManagerDefault argv) <;>
              simp [resolveConfig, h1, h2, h3, h4, h5, h6]

/-- A failed configuration resolution always carries exit code 1. -/
theorem resolveConfig_error_code (initMode : InitMode) (argv : InitOptions)
    (a : ToolAvailability) (ans : InteractionAnswers) (c : Nat)
    (h : resolveConfig initMode argv a ans = Except.error c) : c = 1 := by
  unfold resolveConfig at h
  rcases askField_cases (templateAsked initMode) ans.template initMode with ⟨v1, h1⟩ | h1 <;>
    simp only [h1] at h
  · rcases askField_cases (gitAsked argv a) ans.git (gitDefault argv a) with ⟨v2, h2⟩ | h2 <;>
      simp only [h2] at h
    · rcases askField_cases (eslintAsked argv) ans.eslint (eslintDefault argv) with
        ⟨v3, h3⟩ | h3 <;> simp only [h3] at h
      · rcases askField_cases (prettierAsked argv) ans.prettier (prettierDefault argv) with
          ⟨v4, h4⟩ | h4 <;> simp only [h4] at h
        · rcases askField_cases (vscodeAsked argv) ans.vscode (vscodeDefault argv) with
            ⟨v5, h5⟩ | h5 <;> simp only [h5] at h
          · rcases askField_cases (packageManagerAsked argv a) ans.packageManager
                (packageManagerDefault argv) with ⟨v6, h6⟩ | h6 <;> simp only [h6] at h
            · exact absurd h (by simp)
            · exact (Except.error.injEq _ _ |>.mp h).symm ▸ rfl
          · exact (Except.error.injEq _ _ |>.mp h).symm ▸ rfl
        · exact (Except.error.injEq _ _ |>.mp h).symm ▸ rfl
      · exact (Except.error.injEq _ _ |>.mp h).symm ▸ rfl
    · exact (Except.error.injEq _ _ |>.mp h).symm ▸ rfl
  · exact (Except.error.injEq _ _ |>.mp h).symm ▸ rfl

/-- A failed directory prompt always carries exit code 1. -/
theorem dirResult_error_code (argv : InitOptions) (dirAnswer : Answer String) (c : Nat)
    (h : dirResult argv dirAnswer = Except.error c) : c = 1 := by
  unfold dirResult at h
  cases hd : argv.dir <;> rw [hd] at h
  · cases dirAnswer <;> simp_all
  · simp_all

/-- Joined paths are never the empty string. -/
theorem pathJoin_ne_empty (a b : String) : pathJoin a b ≠ "" := by
  intro h
  have h2 := congrArg String.length h
  rw [pathJoin] at h2
  simp [String.length_append] at h2
  exact absurd h2.1.2 (by decide)

/-- Every path of the inventory is a nonempty string. -/
theorem mem_pathInventory_ne_empty {cwd : String} {templateFiles : List String} {p : String}
    (hp : p ∈ pathInventory cwd templateFiles) : p ≠ "" := by
  unfold pathInventory fixedPaths at hp
  rcases List.mem_append.mp hp with h | h
  · simp only [List.mem_cons, List.not_mem_nil, or_false] at h
    rcases h with h | h | h | h | h | h | h | h <;> exact h ▸ pathJoin_ne_empty _ _
  · rcases List.mem_map.mp h with ⟨name, _, rfl⟩
    exact pathJoin_ne_empty _ _

/-- When the collision list is non-empty the materialization phase runs no
step and fails with the relativized collision list. -/
theorem initMaterialize_collision (processCwd cwd : String) (templateFiles : List String)
    (fs : FileSystem) (cfg : ResolvedConfig) (skipBuild : Option Bool)
    (acts : StepLabel → Except String Unit)
    (h : (pathInventory cwd templateFiles).filter (isCollision fs) ≠ []) :
    initMaterialize processCwd cwd templateFiles fs cfg skipBuild acts =
      ([], Except.error
        (((pathInventory cwd templateFiles).filter (isCollision fs)).map
          (pathRelative processCwd))) := by
  unfold initMaterialize
  have hne :
      (((pathInventory cwd templateFiles).filter (isCollision fs)).map
        (pathRelative processCwd)).isEmpty = false := by
    cases hl : (pathInventory cwd templateFiles).filter (isCollision fs) with
    | nil => exact absurd hl h
    | cons x xs => simp [hl]
  simp [hne]

/-- Running a list of steps whose actions all succeed, followed by more
steps, starts every step of the successful block and continues after it. -/
theorem runSteps_ok_block (pre rest : List (StepLabel × Except String Unit))
    (hpre : ∀ x ∈ pre, x.2 = Except.ok ()) :
    runSteps (pre ++ rest) =
      (pre.map Prod.fst ++ (runSteps rest).1, (runSteps rest).2) := by
  induction pre with
  | nil => simp
  | cons hd tl ih =>
    have h2 : hd.2 = Except.ok () := hpre hd (by simp)
    obtain ⟨s0, r0⟩ := hd
    simp only at h2
    subst h2
    simp [runSteps, ih (fun x hx => hpre x (by simp [hx]))]

/-! ## Claim theorems -/

/-- Claim C1, counterexample: on a host where yarn is the only available
package manager and no explicit option is given, the package-manager prompt
is indeed skipped, but the resolved field falls back to npm — not to the
single available candidate yarn — even though the interaction source would
have answered yarn. -/
theorem claim_C1_counterexample :
    packageManagerCount availYarnOnly = 1 ∧
    packageManagerExistance availYarnOnly PackageManager.yarn = true ∧
    packageManagerExistance availYarnOnly PackageManager.npm = false ∧
    packageManagerAsked {} availYarnOnly = false ∧
    resolveConfig InitMode.game {} availYarnOnly answersFalse =
      Except.ok ⟨InitMode.game, false, false, false, false, PackageManager.npm⟩ ∧
    PackageManager.npm ≠ PackageManager.yarn := by
  decide

/-- Claim C1, amended: with exactly one candidate package manager available,
the package-manager prompt is not shown (the prompt is offered only when
more than one candidate is available), and the resolved field equals the
explicit option when given and npm otherwise — not necessarily the single
available candidate. -/
theorem claim_C1_amended (initMode : InitMode) (argv : InitOptions) (a : ToolAvailability)
    (ans : InteractionAnswers) (cfg : ResolvedConfig)
    (hcount : packageManagerCount a = 1)
    (hok : resolveConfig initMode argv a ans = Except.ok cfg) :
    packageManagerAsked argv a = false ∧
    cfg.packageManager = packageManagerDefault argv := by
  have hasked : packageManagerAsked argv a = false := by
    simp [packageManagerAsked, hcount]
  refine ⟨hasked, ?_⟩
  have hpm := ((resolveConfig_ok_iff initMode argv a ans cfg).mp hok).2.2.2.2.2
  rcases (askField_ok _ _ _ _).mp hpm with ⟨h1, _⟩ | ⟨_, h2⟩
  · rw [hasked] at h1
    exact Bool.noConfusion h1
  · exact h2

/-- Claim C1, witness for the amended theorem at a host with npm only. -/
theorem claim_C1_amended_witness :
    packageManagerAsked {} availNpmOnly = false ∧
    cfgPlain.packageManager = packageManagerDefault {} :=
  claim_C1_amended InitMode.game {} availNpmOnly answersFalse cfgPlain (by decide) (by decide)

/-- Claim C2: a path of the computed inventory counts as a collision exactly
when it exists and its node is a regular file, a symbolic link, or a
directory with at least one entry; in particular an existing empty
directory is never a collision. -/
theorem claim_C2 (fs : FileSystem) (cwd : String) (templateFiles : List String) (p : String)
    (hp : p ∈ pathInventory cwd templateFiles) :
    isCollision fs p = true ↔
      ∃ node, fs.lookup p = some node ∧
        (node = FsNode.file ∨ node = FsNode.symlink ∨
          ∃ entries, node = FsNode.dir entries ∧ entries ≠ []) := by
  have hne : p ≠ "" := mem_pathInventory_ne_empty hp
  have hbne : (p != "") = true := bne_iff_ne.mpr hne
  unfold isCollision
  rw [hbne, Bool.true_and]
  cases hl : fs.lookup p with
  | none => simp
  | some node =>
    cases node with
    | file => simp [statIsFile]
    | symlink => simp [statIsFile, statIsSymbolicLink]
    | dir entries => simp [statIsFile, statIsSymbolicLink, readdirEntries]

/-- Claim C2, witness at a concrete inventory path and filesystem. -/
theorem claim_C2_witness :
    isCollision fsDemo (pathJoin "/w" "package.json") = true ↔
      ∃ node, fsDemo.lookup (pathJoin "/w" "package.json") = some node ∧
        (node = FsNode.file ∨ node = FsNode.symlink ∨
          ∃ entries, node = FsNode.dir entries ∧ entries ≠ []) :=
  claim_C2 fsDemo "/w" [] (pathJoin "/w" "package.json")
    (by simp [pathInventory, fixedPaths])

/-- Claim C3: when at least one collision exists, the materialization phase
fails with the relativized list of all collisions of the whole inventory
(the check does not stop at the first one: every colliding inventory path
appears in the reported list) and runs no provisioning step, so no file is
written after the check. -/
theorem claim_C3 (processCwd cwd : String) (templateFiles : List String) (fs : FileSystem)
    (cfg : ResolvedConfig) (skipBuild : Option Bool) (acts : StepLabel → Except String Unit)
    (h : (pathInventory cwd templateFiles).filter (isCollision fs) ≠ []) :
    (initMaterialize processCwd cwd templateFiles fs cfg skipBuild acts).1 = [] ∧
    (initMaterialize processCwd cwd templateFiles fs cfg skipBuild acts).2 =
      Except.error
        (((pathInventory cwd templateFiles).filter (isCollision fs)).map
          (pathRelative processCwd)) ∧
    ∀ p ∈ pathInventory cwd templateFiles, isCollision fs p = true →
      pathRelative processCwd p ∈
        ((pathInventory cwd templateFiles).filter (isCollision fs)).map
          (pathRelative processCwd) := by
  have hm := initMaterialize_collision processCwd cwd templateFiles fs cfg skipBuild acts h
  refine ⟨by rw [hm], by rw [hm], ?_⟩
  intro p hp hc
  exact List.mem_map_of_mem _ (List.mem_filter.mpr ⟨hp, hc⟩)

/-- Claim C3, witness: with a pre-existing `package.json`, no step runs. -/
theorem claim_C3_witness :
    (initMaterialize "/" "/w" [] fsDemo cfgPlain Option.none actsOk).1 = [] :=
  (claim_C3 "/" "/w" [] fsDemo cfgPlain Option.none actsOk (by decide)).1

/-- Claim C4: the probe maps every settled lookup independently — a lookup
that fulfilled with an explicit not-found result is the only way to get
availability `false`, while a rejected (erroring) lookup yields `true`
without aborting the mapping of the surrounding lookups, and the produced
mapping has one entry per settled lookup. -/
theorem claim_C4 :
    (∀ (pre post : List LookupResult) (r : LookupResult),
      probeAvailabilities (pre ++ r :: post) =
        probeAvailabilities pre ++ settledAvailability r :: probeAvailabilities post) ∧
    (∀ r : LookupResult,
      (settledAvailability r = false ↔ r = LookupResult.fulfilled Option.none)) ∧
    (∀ results : List LookupResult,
      (probeAvailabilities results).length = results.length) := by
  refine ⟨?_, ?_, ?_⟩
  · intro pre post r
    simp [probeAvailabilities]
  · intro r
    cases r with
    | fulfilled v => cases v <;> simp [settledAvailability]
    | rejected => simp [settledAvailability]
  · intro results
    simp [probeAvailabilities]

/-- Claim C5: an explicit option value always equals the corresponding
resolved field — the matching prompt is skipped and the destructuring
default collapses to the explicit value, so neither the built-in default
nor an interactive answer can change it; likewise a template kind pinned by
the invoked subcommand is taken as is. -/
theorem claim_C5 (initMode : InitMode) (argv : InitOptions) (a : ToolAvailability)
    (ans : InteractionAnswers) (cfg : ResolvedConfig)
    (hok : resolveConfig initMode argv a ans = Except.ok cfg) :
    (argv.git.isSome = true → argv.git = some cfg.git) ∧
    (argv.eslint.isSome = true → argv.eslint = some cfg.eslint) ∧
    (argv.prettier.isSome = true → argv.prettier = some cfg.prettier) ∧
    (argv.vscode.isSome = true → argv.vscode = some cfg.vscode) ∧
    (argv.packageManager.isSome = true → argv.packageManager = some cfg.packageManager) ∧
    (initMode ≠ InitMode.none → cfg.template = initMode) := by
  obtain ⟨ht, hg, he, hp, hv, hpm⟩ := (resolveConfig_ok_iff initMode argv a ans cfg).mp hok
  refine ⟨?_, ?_, ?_, ?_, ?_, ?_⟩
  · intro hs
    obtain ⟨b, hb⟩ := Option.isSome_iff_exists.mp hs
    rcases (askField_ok _ _ _ _).mp hg with ⟨h1, _⟩ | ⟨_, h2⟩
    · simp [gitAsked, hb] at h1
    · simp only [gitDefault, hb] at h2
      rw [hb, h2]
  · intro hs
    obtain ⟨b, hb⟩ := Option.isSome_iff_exists.mp hs
    rcases (askField_ok _ _ _ _).mp he with ⟨h1, _⟩ | ⟨_, h2⟩
    · simp [eslintAsked, hb] at h1
    · simp only [eslintDefault, hb, Option.getD_some] at h2
      rw [hb, h2]
  · intro hs
    obtain ⟨b, hb⟩ := Option.isSome_iff_exists.mp hs
    rcases (askField_ok _ _ _ _).mp hp with ⟨h1, _⟩ | ⟨_, h2⟩
    · simp [prettierAsked, hb] at h1
    · simp only [prettierDefault, hb, Option.getD_some] at h2
      rw [hb, h2]
  · intro hs
    obtain ⟨b, hb⟩ := Option.isSome_iff_exists.mp hs
    rcases (askField_ok _ _ _ _).mp hv with ⟨h1, _⟩ | ⟨_, h2⟩
    · simp [vscodeAsked, hb] at h1
    · simp only [vscodeDefault, hb, Option.getD_some] at h2
      rw [hb, h2]
  · intro hs
    obtain ⟨b, hb⟩ := Option.isSome_iff_exists.mp hs
    rcases (askField_ok _ _ _ _).mp hpm with ⟨h1, _⟩ | ⟨_, h2⟩
    · simp [packageManagerAsked, hb] at h1
    · simp only [packageManagerDefault, hb, Option.getD_some] at h2
      rw [hb, h2]
  · intro hne
    rcases (askField_ok _ _ _ _).mp ht with ⟨h1, _⟩ | ⟨_, h2⟩
    · simp [templateAsked] at h1
      exact absurd h1 hne
    · exact h2

/-- Claim C5, witness with every resolvable field explicit. -/
theorem claim_C5_witness :
    (argvAllExplicit.git.isSome = true → argvAllExplicit.git = some cfgAllExplicit.git) ∧
    (argvAllExplicit.eslint.isSome = true →
      argvAllExplicit.eslint = some cfgAllExplicit.eslint) ∧
    (argvAllExplicit.prettier.isSome = true →
      argvAllExplicit.prettier = some cfgAllExplicit.prettier) ∧
    (argvAllExplicit.vscode.isSome = true →
      argvAllExplicit.vscode = some cfgAllExplicit.vscode) ∧
    (argvAllExplicit.packageManager.isSome = true →
      argvAllExplicit.packageManager = some cfgAllExplicit.packageManager) ∧
    (InitMode.package ≠ InitMode.none → cfgAllExplicit.template = InitMode.package) :=
  claim_C5 InitMode.package argvAllExplicit availAll answersFalse cfgAllExplicit (by decide)

/-- Claim C6: with "use defaults" set, no explicit Git option, and the Git
binary unavailable, the Git prompt is never shown and the resolved
version-control field is forced to `false`. -/
theorem claim_C6 (initMode : InitMode) (argv : InitOptions) (a : ToolAvailability)
    (ans : InteractionAnswers) (cfg : ResolvedConfig)
    (hyes : argv.yes = some true) (hgit : argv.git = Option.none)
    (hun : a.gitAvailable = false)
    (hok : resolveConfig initMode argv a ans = Except.ok cfg) :
    gitAsked argv a = false ∧ cfg.git = false := by
  have hasked : gitAsked argv a = false := by
    simp [gitAsked, hun]
  refine ⟨hasked, ?_⟩
  have hg := ((resolveConfig_ok_iff initMode argv a ans cfg).mp hok).2.1
  rcases (askField_ok _ _ _ _).mp hg with ⟨h1, _⟩ | ⟨_, h2⟩
  · rw [hasked] at h1
    exact Bool.noConfusion h1
  · simp only [gitDefault, hgit, hyes, hun, Bool.and_false] at h2
    exact h2

/-- Claim C6, witness on a host without Git and "use defaults" set. -/
theorem claim_C6_witness :
    gitAsked argvYes availNoGit = false ∧ cfgYesNoGit.git = false :=
  claim_C6 InitMode.game argvYes availNoGit answersTrue cfgYesNoGit rfl rfl rfl (by decide)

/-- Claim C7: the provisioning steps are exactly the enabled steps of the
canonical order, in that order; the last step is the build step when it is
not skipped and the template copy otherwise. -/
theorem claim_C7 (cfg : ResolvedConfig) (skipBuild : Option Bool) :
    buildSteps cfg skipBuild = canonicalOrder.filter (stepEnabled cfg skipBuild) ∧
    (buildSteps cfg skipBuild).getLast? =
      some (if runBuild skipBuild then StepLabel.buildStep else StepLabel.copyStep) := by
  obtain ⟨t, g, e, p, v, pm⟩ := cfg
  rcases skipBuild with _ | b
  · cases g <;> cases e <;> cases p <;> cases v <;> exact ⟨rfl, rfl⟩
  · cases b <;> cases g <;> cases e <;> cases p <;> cases v <;> exact ⟨rfl, rfl⟩

/-- Claim C8: when every step before the failing one succeeds, exactly the
steps up to and including the failing one are started, the steps after it
never run (the result does not depend on them), completed steps stay in the
executed list (no rollback), and the step error is propagated as the
outcome of the whole sequence. -/
theorem claim_C8 (pre : List (StepLabel × Except String Unit)) (s : StepLabel) (e : String)
    (rest : List (StepLabel × Except String Unit))
    (hpre : ∀ x ∈ pre, x.2 = Except.ok ()) :
    runSteps (pre ++ (s, Except.error e) :: rest) = (pre.map Prod.fst ++ [s], some e) := by
  rw [runSteps_ok_block pre ((s, Except.error e) :: rest) hpre]
  rfl

/-- Claim C8, witness: three steps with the second failing. -/
theorem claim_C8_witness :
    runSteps
        [(StepLabel.packageJsonStep, Except.ok ()),
         (StepLabel.gitStep, Except.error "fail"),
         (StepLabel.installStep, Except.ok ())] =
      ([StepLabel.packageJsonStep, StepLabel.gitStep], some "fail") :=
  claim_C8 [(StepLabel.packageJsonStep, Except.ok ())] StepLabel.gitStep "fail"
    [(StepLabel.installStep, Except.ok ())] (by decide)

/-- Claim C9, counterexample: cancelling at the Git prompt does exit with
code 1, but the target directory was already created by `fs.ensureDir`
before the prompt batch, so a filesystem write has been performed. -/
theorem claim_C9_counterexample :
    (initResolvePhase "/cwd" InitMode.game { dir := some "proj" } (Answer.given "unused")
        ⟨[]⟩ availAll answersCancelGit).2 = Phase1Result.cancelled 1 ∧
    (initResolvePhase "/cwd" InitMode.game { dir := some "proj" } (Answer.given "unused")
        ⟨[]⟩ availAll answersCancelGit).1 = [FsEffect.ensureDir "/cwd/proj"] ∧
    [FsEffect.ensureDir "/cwd/proj"] ≠ ([] : List FsEffect) := by
  decide

/-- Claim C9, amended: a cancellation at any prompt of the resolution phase
terminates the run with exit code 1 (non-zero), and at that point no file
content has been written — the only possible filesystem effect is the
creation of the previously missing target directory. -/
theorem claim_C9_amended (processCwd : String) (initMode : InitMode) (argv : InitOptions)
    (dirAnswer : Answer String) (fs : FileSystem) (a : ToolAvailability)
    (ans : InteractionAnswers) (code : Nat)
    (h : (initResolvePhase processCwd initMode argv dirAnswer fs a ans).2 =
      Phase1Result.cancelled code) :
    code = 1 ∧ code ≠ 0 ∧
      ∀ eff ∈ (initResolvePhase processCwd initMode argv dirAnswer fs a ans).1,
        ∃ q, eff = FsEffect.ensureDir q := by
  have main : code = 1 ∧
      ∀ eff ∈ (initResolvePhase processCwd initMode argv dirAnswer fs a ans).1,
        ∃ q, eff = FsEffect.ensureDir q := by
    unfold initResolvePhase at h ⊢
    cases hd : dirResult argv dirAnswer with
    | error c0 =>
      simp only [hd] at h ⊢
      simp at h
      subst h
      exact ⟨dirResult_error_code argv dirAnswer c0 hd, by simp⟩
    | ok d =>
      cases hl : fs.lookup (pathResolve processCwd d) with
      | none =>
        cases hr : resolveConfig initMode argv a ans with
        | error c2 =>
          simp only [hd, hl, hr] at h ⊢
          simp at h
          subst h
          refine ⟨resolveConfig_error_code initMode argv a ans c2 hr, ?_⟩
          intro eff heff
          simp at heff
          exact ⟨_, heff⟩
        | ok cfg =>
          simp only [hd, hl, hr] at h
          simp at h
      | some node =>
        cases hdir : statIsDirectory node with
        | false =>
          simp only [hd, hl, hdir] at h
          simp at h
        | true =>
          cases hr : resolveConfig initMode argv a ans with
          | error c2 =>
            simp only [hd, hl, hdir, hr] at h ⊢
            simp at h
            subst h
            exact ⟨resolveConfig_error_code initMode argv a ans c2 hr, by simp⟩
          | ok cfg =>
            simp only [hd, hl, hdir, hr] at h
            simp at h
  obtain ⟨h1, h2⟩ := main
  subst h1
  exact ⟨rfl, by decide, h2⟩

/-- Claim C9, witness for the amended theorem: cancelling at the directory
prompt. -/
theorem claim_C9_amended_witness :
    (1 : Nat) = 1 ∧ (1 : Nat) ≠ 0 ∧
      ∀ eff ∈ (initResolvePhase "/" InitMode.game {} Answer.cancelled ⟨[]⟩ availAll
          answersTrue).1, ∃ q, eff = FsEffect.ensureDir q :=
  claim_C9_amended "/" InitMode.game {} Answer.cancelled ⟨[]⟩ availAll answersTrue 1
    (by decide)

/-- Claim C10: the collision inventory always contains the eight fixed
generated-config paths — it is computed without looking at which features
are enabled — so a pre-existing generated-config file (for instance a
linter configuration) aborts the materialization for every resolved
configuration, including ones with that feature disabled. -/
theorem claim_C10 (processCwd cwd : String) (templateFiles : List String) :
    pathJoin cwd "package.json" ∈ pathInventory cwd templateFiles ∧
    pathJoin cwd "package-lock.json" ∈ pathInventory cwd templateFiles ∧
    pathJoin cwd "tsconfig.json" ∈ pathInventory cwd templateFiles ∧
    pathJoin cwd ".gitignore" ∈ pathInventory cwd templateFiles ∧
    pathJoin cwd ".eslintrc" ∈ pathInventory cwd templateFiles ∧
    pathJoin cwd ".prettierrc" ∈ pathInventory cwd templateFiles ∧
    pathJoin (pathJoin cwd ".vscode") "settings.json" ∈ pathInventory cwd templateFiles ∧
    pathJoin (pathJoin cwd ".vscode") "extensions.json" ∈ pathInventory cwd templateFiles ∧
    ∀ (fs : FileSystem) (cfg : ResolvedConfig) (skipBuild : Option Bool)
      (acts : StepLabel → Except String Unit),
      isCollision fs (pathJoin cwd ".eslintrc") = true →
        initMaterialize processCwd cwd templateFiles fs cfg skipBuild acts =
          ([], Except.error
            (((pathInventory cwd templateFiles).filter (isCollision fs)).map
              (pathRelative processCwd))) := by
  refine ⟨?_, ?_, ?_, ?_, ?_, ?_, ?_, ?_, ?_⟩ <;> try simp [pathInventory, fixedPaths]
  intro fs cfg skipBuild acts hc
  apply initMaterialize_collision
  intro hnil
  have hmem : pathJoin cwd ".eslintrc" ∈
      (pathInventory cwd templateFiles).filter (isCollision fs) :=
    List.mem_filter.mpr ⟨by simp [pathInventory, fixedPaths], hc⟩
  rw [hnil] at hmem
  exact absurd hmem (List.not_mem_nil _)

/-- Claim C10, witness: the linter-config path is always in the inventory. -/
theorem claim_C10_witness :
    pathJoin "/w" ".eslintrc" ∈ pathInventory "/w" [] :=
  (claim_C10 "/" "/w" []).2.2.2.2.1

end CreateRobloxTS
